import Mathlib

/-!
Shallow embedding of the embed-doc-image crate (src/lib.rs).

The crate is a single-pass source rewriter: it parses a (label, path)
annotation, resolves the path against the CARGO_MANIFEST_DIR project root,
reads the file bytes, base64-encodes them, determines a MIME type from the
file extension, formats a Markdown reference-link-target line, and either
returns that line (function-like form) or appends it, preceded by an empty
doc line, to the attribute list of the annotated declaration
(attribute form).

Modelling conventions:
- Rust panics / compile errors become Except.error with a dedicated
  constructor per panic site.
- The filesystem is a function from resolved path strings to optional byte
  lists (bytes are Nat, one per u8).
- The CARGO_MANIFEST_DIR environment variable is an Option String.
- syn items are an inductive with one constructor per match arm of the
  attribute entry point, each carrying its attribute list and an opaque
  rest field abstracting the remainder of the declaration (signature,
  body, ...); the catch-all arm of the source match is the verbatim
  constructor.
- The base64 dependency is embedded as standard RFC 4648 base64
  (padded, unwrapped, non-URL-safe alphabet), the documented behaviour of
  the base64 crate function the source calls.
-/

/-- A token of an annotation argument list: a string literal, a comma, or
any other token. -/
inductive Tok
  | litStr (s : String)
  | comma
  | other (s : String)
deriving DecidableEq, Repr

/-- The parsed (label, path) pair; lib.rs lines 210-214. The path is kept
as the literal string the user wrote (PathBuf::from of the literal). -/
structure ImageDescription where
  label : String
  path : String
deriving DecidableEq, Repr

/-- An attribute attached to a declaration: either a documentation
attribute carrying its string, or any other attribute. -/
inductive Attr
  | doc (s : String)
  | other (tokens : String)
deriving DecidableEq, Repr

/-- A syn item, with one constructor per arm of the match in the attribute
entry point (lib.rs lines 304-332); verbatimItem stands for every other
item, which the source's catch-all arm (lines 333-338) rejects. -/
inductive Item
  | constItem (attrs : List Attr) (rest : String)
  | enumItem (attrs : List Attr) (rest : String)
  | externCrateItem (attrs : List Attr) (rest : String)
  | fnItem (attrs : List Attr) (rest : String)
  | foreignModItem (attrs : List Attr) (rest : String)
  | implItem (attrs : List Attr) (rest : String)
  | macItem (attrs : List Attr) (rest : String)
  | mac2Item (attrs : List Attr) (rest : String)
  | modItem (attrs : List Attr) (rest : String)
  | staticItem (attrs : List Attr) (rest : String)
  | structItem (attrs : List Attr) (rest : String)
  | traitItem (attrs : List Attr) (rest : String)
  | traitAliasItem (attrs : List Attr) (rest : String)
  | typeAliasItem (attrs : List Attr) (rest : String)
  | unionItem (attrs : List Attr) (rest : String)
  | useItem (attrs : List Attr) (rest : String)
  | verbatimItem (tokens : String)
deriving DecidableEq, Repr

/-- The declaration category of an item, one per constructor. -/
inductive ItemKind
  | kConst | kEnum | kExternCrate | kFn | kForeignMod | kImpl | kMac
  | kMac2 | kMod | kStatic | kStruct | kTrait | kTraitAlias | kTypeAlias
  | kUnion | kUse | kVerbatim
deriving DecidableEq, Repr

def Item.kind : Item → ItemKind
  | .constItem _ _ => .kConst
  | .enumItem _ _ => .kEnum
  | .externCrateItem _ _ => .kExternCrate
  | .fnItem _ _ => .kFn
  | .foreignModItem _ _ => .kForeignMod
  | .implItem _ _ => .kImpl
  | .macItem _ _ => .kMac
  | .mac2Item _ _ => .kMac2
  | .modItem _ _ => .kMod
  | .staticItem _ _ => .kStatic
  | .structItem _ _ => .kStruct
  | .traitItem _ _ => .kTrait
  | .traitAliasItem _ _ => .kTraitAlias
  | .typeAliasItem _ _ => .kTypeAlias
  | .unionItem _ _ => .kUnion
  | .useItem _ _ => .kUse
  | .verbatimItem _ => .kVerbatim

/-- The attribute list of an item (empty for the verbatim constructor,
which carries no structured attribute list). -/
def Item.attrs : Item → List Attr
  | .constItem a _ => a
  | .enumItem a _ => a
  | .externCrateItem a _ => a
  | .fnItem a _ => a
  | .foreignModItem a _ => a
  | .implItem a _ => a
  | .macItem a _ => a
  | .mac2Item a _ => a
  | .modItem a _ => a
  | .staticItem a _ => a
  | .structItem a _ => a
  | .traitItem a _ => a
  | .traitAliasItem a _ => a
  | .typeAliasItem a _ => a
  | .unionItem a _ => a
  | .useItem a _ => a
  | .verbatimItem _ => []

/-- Everything of an item other than its attribute list (signature, body,
tokens, ...), abstracted as an opaque string. -/
def Item.rest : Item → String
  | .constItem _ r => r
  | .enumItem _ r => r
  | .externCrateItem _ r => r
  | .fnItem _ r => r
  | .foreignModItem _ r => r
  | .implItem _ r => r
  | .macItem _ r => r
  | .mac2Item _ r => r
  | .modItem _ r => r
  | .staticItem _ r => r
  | .structItem _ r => r
  | .traitItem _ r => r
  | .traitAliasItem _ r => r
  | .typeAliasItem _ r => r
  | .unionItem _ r => r
  | .useItem _ r => r
  | .verbatimItem t => t

/-- The error outcomes of the pipeline, one constructor per panic or
compile-error site of lib.rs. -/
inductive EmbedError
  | parseError
  | envMissing
  | readFailure (path : String)
  | noExtension (path : String)
  | unrecognizedExtension
  | unsupportedItem (item : Item) (msg : String)
deriving DecidableEq, Repr

/-- The Parse impl for ImageDescription (lib.rs lines 216-226): a string
literal, a comma, a string literal, and (because parse_macro_input
requires the stream to be fully consumed) nothing else. -/
def parseImageDescription (input : List Tok) : Except EmbedError ImageDescription :=
  match input with
  | [Tok.litStr label, Tok.comma, Tok.litStr path] =>
      Except.ok { label := label, path := path }
  | _ => Except.error EmbedError.parseError

/-- A Unix path is absolute exactly when it starts with the separator. -/
def isAbsolutePath (p : String) : Bool :=
  match p.data with
  | '/' :: _ => true
  | _ => false

/-- Whether a path already ends with the separator. -/
def endsWithSep (p : String) : Bool :=
  match p.data.reverse with
  | '/' :: _ => true
  | _ => false

/-- Path::join of the project root with the user path (lib.rs line 259):
an absolute right operand replaces the root entirely; a relative one is
appended, inserting a separator when needed. -/
def joinPath (root p : String) : String :=
  if isAbsolutePath p then p
  else if root = "" then p
  else if endsWithSep root then root ++ p
  else root ++ "/" ++ p

/-- The file name of a path: the characters after the last separator. -/
def fileNameChars (p : List Char) : List Char :=
  (p.reverse.takeWhile (fun c => c ≠ '/')).reverse

/-- Path::extension (lib.rs line 260): the portion of the file name after
the final dot; none when the file name has no dot or consists of a
leading dot followed by no further dot. -/
def pathExtension (p : String) : Option String :=
  let f := fileNameChars p.toList
  let r := f.reverse
  let afterDot := r.takeWhile (fun c => c ≠ '.')
  if afterDot.length = r.length then none
  else if r.length = afterDot.length + 1 then none
  else some (String.mk afterDot.reverse)

/-- The standard base64 alphabet, in index order. -/
def base64Chars : List Char :=
  "ABCDEFGHIJKLMNOPQRSTUVWXYZabcdefghijklmnopqrstuvwxyz0123456789+/".toList

def b64char (n : Nat) : Char := base64Chars.getD n 'A'

/-- Standard base64 (RFC 4648: padded with =, no line wrapping, non
URL-safe alphabet), the behaviour of the encode function of the base64
crate that lib.rs line 230 calls. -/
def base64Encode : List Nat → List Char
  | [] => []
  | [a] => [b64char (a / 4), b64char (a % 4 * 16), '=', '=']
  | [a, b] => [b64char (a / 4), b64char (a % 4 * 16 + b / 16), b64char (b % 16 * 4), '=']
  | a :: b :: c :: rest =>
      b64char (a / 4) :: b64char (a % 4 * 16 + b / 16) ::
      b64char (b % 16 * 4 + c / 64) :: b64char (c % 64) :: base64Encode rest

/-- encode_base64_image_from_path (lib.rs lines 228-231): read the file
fully and base64-encode the bytes; a failed read is the panic at line
229, modelled as none. -/
def encode_base64_image_from_path (fs : String → Option (List Nat)) (path : String) :
    Option String :=
  match fs path with
  | some bytes => some (String.mk (base64Encode bytes))
  | none => none

/-- The match of determine_mime_type (lib.rs lines 241-251), applied to
the already-lowercased extension; the catch-all arm is the panic at line
250, modelled as none. -/
def mimeForLowerExt : String → Option String
  | "jpg" => some "image/jpeg"
  | "jpeg" => some "image/jpeg"
  | "png" => some "image/png"
  | "bmp" => some "image/bmp"
  | "svg" => some "image/svg+xml"
  | "gif" => some "image/gif"
  | "tif" => some "image/tiff"
  | "tiff" => some "image/tiff"
  | "webp" => some "image/webp"
  | "ico" => some "image/vnd.microsoft.icon"
  | _ => none

/-- ASCII lowercasing of a string, as str::to_ascii_lowercase does
(Char.toLower only rewrites the ASCII uppercase range). -/
def asciiLowercase (s : String) : String := String.mk (s.data.map Char.toLower)

/-- determine_mime_type (lib.rs lines 233-253): lowercase the extension
(ASCII only), then look it up. -/
def determine_mime_type (extension : String) : Option String :=
  mimeForLowerExt (asciiLowercase extension)

/-- produce_doc_string_for_image (lib.rs lines 255-274). Order matters
and follows the source: environment lookup, file read, extension lookup,
MIME lookup, then formatting. -/
def produce_doc_string_for_image (env : Option String)
    (fs : String → Option (List Nat)) (image_desc : ImageDescription) :
    Except EmbedError String :=
  match env with
  | none => Except.error EmbedError.envMissing
  | some root_dir =>
    match fs (joinPath root_dir image_desc.path) with
    | none => Except.error (EmbedError.readFailure (joinPath root_dir image_desc.path))
    | some bytes =>
      match pathExtension image_desc.path with
      | none => Except.error (EmbedError.noExtension image_desc.path)
      | some ext =>
        match determine_mime_type ext with
        | none => Except.error EmbedError.unrecognizedExtension
        | some mime =>
          Except.ok (" [" ++ image_desc.label ++ "]: data:" ++ mime ++ ";base64," ++
            String.mk (base64Encode bytes))

/-- embed_image (lib.rs lines 279-291): parse the descriptor, produce the
doc string, and return it prefixed by a blank documentation line. -/
def embed_image (env : Option String) (fs : String → Option (List Nat))
    (item : List Tok) : Except EmbedError String :=
  match parseImageDescription item with
  | Except.error e => Except.error e
  | Except.ok image_desc =>
    match produce_doc_string_for_image env fs image_desc with
    | Except.error e => Except.error e
    | Except.ok doc_string => Except.ok ("\n \n " ++ doc_string)

/-- The match of embed_doc_image (lib.rs lines 304-339): every supported
item gets an empty doc attribute and then one carrying the doc string
pushed onto its attribute list; anything else becomes the compile error
of lines 333-338. -/
def pushDocAttrs (input : Item) (doc_string : String) : Except EmbedError Item :=
  match input with
  | .constItem attrs rest => .ok (.constItem (attrs ++ [.doc "", .doc doc_string]) rest)
  | .enumItem attrs rest => .ok (.enumItem (attrs ++ [.doc "", .doc doc_string]) rest)
  | .externCrateItem attrs rest =>
      .ok (.externCrateItem (attrs ++ [.doc "", .doc doc_string]) rest)
  | .fnItem attrs rest => .ok (.fnItem (attrs ++ [.doc "", .doc doc_string]) rest)
  | .foreignModItem attrs rest =>
      .ok (.foreignModItem (attrs ++ [.doc "", .doc doc_string]) rest)
  | .implItem attrs rest => .ok (.implItem (attrs ++ [.doc "", .doc doc_string]) rest)
  | .macItem attrs rest => .ok (.macItem (attrs ++ [.doc "", .doc doc_string]) rest)
  | .mac2Item attrs rest => .ok (.mac2Item (attrs ++ [.doc "", .doc doc_string]) rest)
  | .modItem attrs rest => .ok (.modItem (attrs ++ [.doc "", .doc doc_string]) rest)
  | .staticItem attrs rest => .ok (.staticItem (attrs ++ [.doc "", .doc doc_string]) rest)
  | .structItem attrs rest => .ok (.structItem (attrs ++ [.doc "", .doc doc_string]) rest)
  | .traitItem attrs rest => .ok (.traitItem (attrs ++ [.doc "", .doc doc_string]) rest)
  | .traitAliasItem attrs rest =>
      .ok (.traitAliasItem (attrs ++ [.doc "", .doc doc_string]) rest)
  | .typeAliasItem attrs rest =>
      .ok (.typeAliasItem (attrs ++ [.doc "", .doc doc_string]) rest)
  | .unionItem attrs rest => .ok (.unionItem (attrs ++ [.doc "", .doc doc_string]) rest)
  | .useItem attrs rest => .ok (.useItem (attrs ++ [.doc "", .doc doc_string]) rest)
  | .verbatimItem t =>
      .error (.unsupportedItem (.verbatimItem t)
        "Unsupported item. Cannot apply attribute to the given item.")

/-- embed_doc_image (lib.rs lines 296-340): parse the annotation
arguments, produce the doc string, then rewrite the item. -/
def embed_doc_image (env : Option String) (fs : String → Option (List Nat))
    (attr : List Tok) (item : Item) : Except EmbedError Item :=
  match parseImageDescription attr with
  | Except.error e => Except.error e
  | Except.ok image_desc =>
    match produce_doc_string_for_image env fs image_desc with
    | Except.error e => Except.error e
    | Except.ok doc_string => pushDocAttrs item doc_string

/-- The item kinds accepted by the match of embed_doc_image, one per
listed arm (lib.rs lines 305-320). -/
def supportedKinds : List ItemKind :=
  [.kConst, .kEnum, .kExternCrate, .kFn, .kForeignMod, .kImpl, .kMac,
   .kMac2, .kMod, .kStatic, .kStruct, .kTrait, .kTraitAlias, .kTypeAlias,
   .kUnion, .kUse]

/-- The supported declaration categories, grouping the two macro item
forms into a single category as the spec's category list does. -/
def supportedCategories : List ItemKind :=
  supportedKinds.filter (fun k => k ≠ ItemKind.kMac2)

/-- Classification of the abort sites that the spec taxonomy labels
FileError (errors about the file itself: failed read, or a file name
without an extension), as opposed to UnsupportedExtension. -/
def isFileError : EmbedError → Bool
  | .readFailure _ => true
  | .noExtension _ => true
  | _ => false

/-- C1: for a (label, path) descriptor whose resolved path is readable and
whose extension has a MIME entry, the produced fragment is exactly
the line composed of a leading space, the bracketed label, the data URI
with that MIME type, and the standard base64 of the file bytes. -/
theorem C1_fragment_format (root : String) (fs : String → Option (List Nat))
    (d : ImageDescription) (bytes : List Nat) (e m : String)
    (hread : fs (joinPath root d.path) = some bytes)
    (hext : pathExtension d.path = some e)
    (hmime : determine_mime_type e = some m) :
    produce_doc_string_for_image (some root) fs d =
      Except.ok (" [" ++ d.label ++ "]: data:" ++ m ++ ";base64," ++
        String.mk (base64Encode bytes)) := by
  simp [produce_doc_string_for_image, hread, hext, hmime]

/-- Witness for C1 at a concrete file of three bytes. -/
theorem C1_fragment_format_witness :
    (fun p => if p = "/proj/images/a.png" then some [1, 2, 3] else none)
        (joinPath "/proj" "images/a.png") = some [1, 2, 3]
    ∧ pathExtension "images/a.png" = some "png"
    ∧ determine_mime_type "png" = some "image/png"
    ∧ produce_doc_string_for_image (some "/proj")
        (fun p => if p = "/proj/images/a.png" then some [1, 2, 3] else none)
        ⟨"ferris", "images/a.png"⟩ =
      Except.ok (" [" ++ "ferris" ++ "]: data:" ++ "image/png" ++ ";base64," ++
        String.mk (base64Encode [1, 2, 3])) :=
  ⟨rfl, rfl, rfl,
   C1_fragment_format "/proj"
     (fun p => if p = "/proj/images/a.png" then some [1, 2, 3] else none)
     ⟨"ferris", "images/a.png"⟩ [1, 2, 3] "png" "image/png" rfl rfl rfl⟩

/-- C2: the MIME type is a pure case-insensitive function of the
extension (extensions equal up to ASCII lowercasing get the same MIME
type), the table has exactly the listed entries, and the extension PNG
resolves like png. -/
theorem C2_mime_case_insensitive_table :
    (∀ s t : String, asciiLowercase s = asciiLowercase t →
      determine_mime_type s = determine_mime_type t)
    ∧ (∀ ext : String,
        determine_mime_type ext = mimeForLowerExt (asciiLowercase ext))
    ∧ determine_mime_type "jpg" = some "image/jpeg"
    ∧ determine_mime_type "jpeg" = some "image/jpeg"
    ∧ determine_mime_type "png" = some "image/png"
    ∧ determine_mime_type "bmp" = some "image/bmp"
    ∧ determine_mime_type "svg" = some "image/svg+xml"
    ∧ determine_mime_type "gif" = some "image/gif"
    ∧ determine_mime_type "tif" = some "image/tiff"
    ∧ determine_mime_type "tiff" = some "image/tiff"
    ∧ determine_mime_type "webp" = some "image/webp"
    ∧ determine_mime_type "ico" = some "image/vnd.microsoft.icon"
    ∧ pathExtension "x.PNG" = some "PNG"
    ∧ determine_mime_type "PNG" = determine_mime_type "png" := by
  refine ⟨fun s t h => ?_, fun ext => rfl, rfl, rfl, rfl, rfl, rfl, rfl, rfl,
    rfl, rfl, rfl, rfl, rfl⟩
  simp only [determine_mime_type, h]

/-- Witness for C2: the case-insensitivity conjunct at PNG versus png. -/
theorem C2_mime_case_insensitive_table_witness :
    asciiLowercase "PNG" = asciiLowercase "png"
    ∧ determine_mime_type "PNG" = determine_mime_type "png" :=
  ⟨rfl, C2_mime_case_insensitive_table.1 "PNG" "png" rfl⟩

/-- C3: in attribute mode, a supported declaration is returned with
exactly two documentation attributes pushed onto its existing attribute
list, an empty one and then the fragment, while its category and every
other part are unchanged. -/
theorem C3_attribute_mode_appends (env : Option String)
    (fs : String → Option (List Nat)) (attrToks : List Tok) (item : Item)
    (d : ImageDescription) (s : String)
    (hparse : parseImageDescription attrToks = Except.ok d)
    (hdoc : produce_doc_string_for_image env fs d = Except.ok s)
    (hsupported : item.kind ≠ ItemKind.kVerbatim) :
    ∃ rewritten : Item, embed_doc_image env fs attrToks item = Except.ok rewritten
      ∧ rewritten.kind = item.kind ∧ rewritten.rest = item.rest
      ∧ rewritten.attrs = item.attrs ++ [Attr.doc "", Attr.doc s] := by
  simp only [embed_doc_image, hparse, hdoc]
  cases item
  case verbatimItem t => exact absurd rfl hsupported
  all_goals exact ⟨_, rfl, rfl, rfl, rfl⟩

/-- Witness for C3 at a function item with one prior attribute. -/
theorem C3_attribute_mode_appends_witness :
    parseImageDescription [Tok.litStr "l", Tok.comma, Tok.litStr "a.png"] =
      Except.ok ⟨"l", "a.png"⟩
    ∧ produce_doc_string_for_image (some "/r") (fun _ => some [1, 2, 3])
        ⟨"l", "a.png"⟩ = Except.ok " [l]: data:image/png;base64,AQID"
    ∧ Item.kind (Item.fnItem [Attr.other "inline"] "fn foo") ≠ ItemKind.kVerbatim
    ∧ ∃ rewritten : Item,
        embed_doc_image (some "/r") (fun _ => some [1, 2, 3])
          [Tok.litStr "l", Tok.comma, Tok.litStr "a.png"]
          (Item.fnItem [Attr.other "inline"] "fn foo") = Except.ok rewritten
        ∧ rewritten.kind = Item.kind (Item.fnItem [Attr.other "inline"] "fn foo")
        ∧ rewritten.rest = Item.rest (Item.fnItem [Attr.other "inline"] "fn foo")
        ∧ rewritten.attrs = Item.attrs (Item.fnItem [Attr.other "inline"] "fn foo")
            ++ [Attr.doc "", Attr.doc " [l]: data:image/png;base64,AQID"] :=
  ⟨rfl, rfl, by decide,
   C3_attribute_mode_appends (some "/r") (fun _ => some [1, 2, 3])
     [Tok.litStr "l", Tok.comma, Tok.litStr "a.png"]
     (Item.fnItem [Attr.other "inline"] "fn foo") ⟨"l", "a.png"⟩
     " [l]: data:image/png;base64,AQID" rfl rfl (by decide)⟩

/-- C4 counterexample: the supported declaration categories listed by the
claim (the arms of the source match, with the two macro item forms
grouped as one category) number fifteen, not fourteen. -/
theorem C4_counterexample :
    supportedCategories.length = 15 ∧ ¬ supportedCategories.length = 14 := by
  decide

/-- C4 (amended: fifteen categories): with the annotation arguments
parsed and the fragment produced, attribute mode succeeds exactly on the
items whose kind is in the supported list, and on any other item fails
with the unsupported-item compile error, producing no rewritten
declaration. -/
theorem C4_supported_items_exact (env : Option String)
    (fs : String → Option (List Nat)) (attrToks : List Tok) (item : Item)
    (d : ImageDescription) (s : String)
    (hparse : parseImageDescription attrToks = Except.ok d)
    (hdoc : produce_doc_string_for_image env fs d = Except.ok s) :
    (item.kind ∈ supportedKinds →
      ∃ rewritten : Item, embed_doc_image env fs attrToks item = Except.ok rewritten)
    ∧ (item.kind ∉ supportedKinds →
        embed_doc_image env fs attrToks item =
          Except.error (EmbedError.unsupportedItem item
            "Unsupported item. Cannot apply attribute to the given item.")) := by
  simp only [embed_doc_image, hparse, hdoc]
  cases item
  case verbatimItem t =>
    refine ⟨fun hmem => ?_, fun _ => rfl⟩
    simp [Item.kind, supportedKinds] at hmem
  all_goals refine ⟨fun _ => ⟨_, rfl⟩, fun hmem => ?_⟩
  all_goals simp [Item.kind, supportedKinds] at hmem

/-- Witness for C4: a verbatim item is rejected with the compile error. -/
theorem C4_supported_items_exact_witness :
    parseImageDescription [Tok.litStr "l", Tok.comma, Tok.litStr "a.png"] =
      Except.ok ⟨"l", "a.png"⟩
    ∧ produce_doc_string_for_image (some "/r") (fun _ => some [1])
        ⟨"l", "a.png"⟩ = Except.ok " [l]: data:image/png;base64,AQ=="
    ∧ Item.kind (Item.verbatimItem "5 + 5;") ∉ supportedKinds
    ∧ embed_doc_image (some "/r") (fun _ => some [1])
        [Tok.litStr "l", Tok.comma, Tok.litStr "a.png"]
        (Item.verbatimItem "5 + 5;") =
      Except.error (EmbedError.unsupportedItem (Item.verbatimItem "5 + 5;")
        "Unsupported item. Cannot apply attribute to the given item.") :=
  ⟨rfl, rfl, by decide,
   (C4_supported_items_exact (some "/r") (fun _ => some [1])
     [Tok.litStr "l", Tok.comma, Tok.litStr "a.png"]
     (Item.verbatimItem "5 + 5;") ⟨"l", "a.png"⟩
     " [l]: data:image/png;base64,AQ==" rfl rfl).2 (by decide)⟩

/-- C5 counterexample: a path with an unrecognized extension whose file
cannot be read aborts with the read error (the file is read before the
extension is inspected), not with the unsupported-extension error. -/
theorem C5_counterexample :
    pathExtension "a.xyz" = some "xyz"
    ∧ determine_mime_type "xyz" = none
    ∧ produce_doc_string_for_image (some "/r") (fun _ => none) ⟨"l", "a.xyz"⟩ =
        Except.error (EmbedError.readFailure "/r/a.xyz")
    ∧ EmbedError.readFailure "/r/a.xyz" ≠ EmbedError.unrecognizedExtension :=
  ⟨rfl, rfl, rfl, by decide⟩

/-- C5 (amended: the read happens first, so for an unrecognized extension
the unsupported-extension abort is reached only when the file is
readable): with the project root present, a readable file whose
extension has no table entry aborts with the unsupported-extension
error; a path with no extension aborts with a file-level error (the read
error when unreadable, otherwise the dedicated no-extension error); an
aborted run never produces a fragment. -/
theorem C5_extension_errors (root : String) (fs : String → Option (List Nat))
    (d : ImageDescription) :
    (∀ (bytes : List Nat) (e : String), fs (joinPath root d.path) = some bytes →
      pathExtension d.path = some e → determine_mime_type e = none →
      produce_doc_string_for_image (some root) fs d =
        Except.error EmbedError.unrecognizedExtension)
    ∧ (pathExtension d.path = none →
        ∃ err : EmbedError,
          produce_doc_string_for_image (some root) fs d = Except.error err
          ∧ isFileError err = true)
    ∧ (∀ err : EmbedError,
        produce_doc_string_for_image (some root) fs d = Except.error err →
        ∀ s : String,
          produce_doc_string_for_image (some root) fs d ≠ Except.ok s) := by
  refine ⟨fun bytes e h1 h2 h3 => ?_, fun hext => ?_, fun err herr s hok => ?_⟩
  · simp [produce_doc_string_for_image, h1, h2, h3]
  · cases hfs : fs (joinPath root d.path) with
    | none =>
        exact ⟨EmbedError.readFailure (joinPath root d.path),
          by simp [produce_doc_string_for_image, hfs], rfl⟩
    | some bytes =>
        exact ⟨EmbedError.noExtension d.path,
          by simp [produce_doc_string_for_image, hfs, hext], rfl⟩
  · rw [herr] at hok
    exact Except.noConfusion hok

/-- Witness for C5 at a readable unknown-extension file and at an
extensionless path. -/
theorem C5_extension_errors_witness :
    (fun p => if p = "/r/a.xyz" then some [1] else none) (joinPath "/r" "a.xyz") =
      some [1]
    ∧ pathExtension "a.xyz" = some "xyz"
    ∧ determine_mime_type "xyz" = none
    ∧ produce_doc_string_for_image (some "/r")
        (fun p => if p = "/r/a.xyz" then some [1] else none) ⟨"l", "a.xyz"⟩ =
      Except.error EmbedError.unrecognizedExtension
    ∧ pathExtension "noext" = none
    ∧ (∃ err : EmbedError,
        produce_doc_string_for_image (some "/r") (fun _ => none) ⟨"l2", "noext"⟩ =
          Except.error err ∧ isFileError err = true) :=
  ⟨rfl, rfl, rfl,
   (C5_extension_errors "/r" (fun p => if p = "/r/a.xyz" then some [1] else none)
     ⟨"l", "a.xyz"⟩).1 [1] "xyz" rfl rfl rfl,
   rfl,
   (C5_extension_errors "/r" (fun _ => none) ⟨"l2", "noext"⟩).2.1 rfl⟩

/-- C6: the descriptor parser succeeds exactly on a token list that is a
string literal, a comma, and a string literal with nothing else, and on
every other token list fails with the parse error. -/
theorem C6_parse_exact :
    (∀ l p : String,
      parseImageDescription [Tok.litStr l, Tok.comma, Tok.litStr p] =
        Except.ok ⟨l, p⟩)
    ∧ (∀ (ts : List Tok) (d : ImageDescription),
        parseImageDescription ts = Except.ok d →
        ts = [Tok.litStr d.label, Tok.comma, Tok.litStr d.path])
    ∧ (∀ ts : List Tok,
        (¬ ∃ l p : String, ts = [Tok.litStr l, Tok.comma, Tok.litStr p]) →
        parseImageDescription ts = Except.error EmbedError.parseError) := by
  refine ⟨fun l p => rfl, fun ts d h => ?_, fun ts h => ?_⟩
  · unfold parseImageDescription at h
    split at h
    · rename_i l p
      injection h with h2
      subst h2
      rfl
    · exact Except.noConfusion h
  · unfold parseImageDescription
    split
    · rename_i l p
      exact absurd ⟨l, p, rfl⟩ h
    · rfl

/-- Witness for C6: a lone comma is rejected with the parse error. -/
theorem C6_parse_exact_witness :
    (¬ ∃ l p : String,
        ([Tok.comma] : List Tok) = [Tok.litStr l, Tok.comma, Tok.litStr p])
    ∧ parseImageDescription [Tok.comma] = Except.error EmbedError.parseError :=
  ⟨fun ⟨l, p, h⟩ => by simp at h,
   C6_parse_exact.2.2 [Tok.comma] (fun ⟨l, p, h⟩ => by simp at h)⟩

/-- C7: the function-like form returns exactly the fragment prefixed with
the blank-documentation-line marker, and nothing else. -/
theorem C7_inline_fragment (env : Option String)
    (fs : String → Option (List Nat)) (toks : List Tok)
    (d : ImageDescription) (s : String)
    (hparse : parseImageDescription toks = Except.ok d)
    (hdoc : produce_doc_string_for_image env fs d = Except.ok s) :
    embed_image env fs toks = Except.ok ("\n \n " ++ s) := by
  simp only [embed_image, hparse, hdoc]

/-- Witness for C7 at the ferris scenario of the spec, with a concrete
three-byte png file. -/
theorem C7_inline_fragment_witness :
    parseImageDescription
      [Tok.litStr "ferris", Tok.comma,
       Tok.litStr "images/rustacean-orig-noshadow-tiny.png"] =
      Except.ok ⟨"ferris", "images/rustacean-orig-noshadow-tiny.png"⟩
    ∧ produce_doc_string_for_image (some "/crate")
        (fun p => if p = "/crate/images/rustacean-orig-noshadow-tiny.png"
          then some [1, 2, 3] else none)
        ⟨"ferris", "images/rustacean-orig-noshadow-tiny.png"⟩ =
      Except.ok " [ferris]: data:image/png;base64,AQID"
    ∧ embed_image (some "/crate")
        (fun p => if p = "/crate/images/rustacean-orig-noshadow-tiny.png"
          then some [1, 2, 3] else none)
        [Tok.litStr "ferris", Tok.comma,
         Tok.litStr "images/rustacean-orig-noshadow-tiny.png"] =
      Except.ok ("\n \n " ++ " [ferris]: data:image/png;base64,AQID") :=
  ⟨rfl, rfl,
   C7_inline_fragment (some "/crate")
     (fun p => if p = "/crate/images/rustacean-orig-noshadow-tiny.png"
       then some [1, 2, 3] else none)
     [Tok.litStr "ferris", Tok.comma,
      Tok.litStr "images/rustacean-orig-noshadow-tiny.png"]
     ⟨"ferris", "images/rustacean-orig-noshadow-tiny.png"⟩
     " [ferris]: data:image/png;base64,AQID" rfl rfl⟩

/-- C8: the pipeline is deterministic and reads only the resolved file:
two runs with the same descriptor and project root, over filesystems
that agree on the bytes of the resolved file, yield byte-identical
results (in particular identical fragments). -/
theorem C8_deterministic (root : String) (fs1 fs2 : String → Option (List Nat))
    (d : ImageDescription)
    (hagree : fs1 (joinPath root d.path) = fs2 (joinPath root d.path)) :
    produce_doc_string_for_image (some root) fs1 d =
      produce_doc_string_for_image (some root) fs2 d := by
  simp only [produce_doc_string_for_image, hagree]

/-- Witness for C8: two filesystems that agree only on the one file. -/
theorem C8_deterministic_witness :
    (fun p => if p = "/r/a.png" then some [5] else none) (joinPath "/r" "a.png") =
      (fun _ => some ([5] : List Nat)) (joinPath "/r" "a.png")
    ∧ produce_doc_string_for_image (some "/r")
        (fun p => if p = "/r/a.png" then some [5] else none) ⟨"l", "a.png"⟩ =
      produce_doc_string_for_image (some "/r") (fun _ => some [5]) ⟨"l", "a.png"⟩ :=
  ⟨rfl,
   C8_deterministic "/r" (fun p => if p = "/r/a.png" then some [5] else none)
     (fun _ => some [5]) ⟨"l", "a.png"⟩ rfl⟩

/-- C9 counterexample: the parser accepts an empty label literal, so not
every produced descriptor has a non-empty label. -/
theorem C9_counterexample :
    ¬ (∀ (ts : List Tok) (d : ImageDescription),
        parseImageDescription ts = Except.ok d → d.label ≠ "") :=
  fun h =>
    h [Tok.litStr "", Tok.comma, Tok.litStr "img.png"] ⟨"", "img.png"⟩ rfl rfl

/-- C9 (amended: the label is copied verbatim from the literal, with no
non-emptiness check, so it may be empty): every parsed descriptor
carries exactly the label string that was written. -/
theorem C9_label_verbatim (l p : String) :
    ∃ d : ImageDescription,
      parseImageDescription [Tok.litStr l, Tok.comma, Tok.litStr p] =
        Except.ok d ∧ d.label = l :=
  ⟨⟨l, p⟩, rfl, rfl⟩

/-- C10: path resolution is Path::join of the root and the descriptor
path, so an absolute descriptor path discards the project root entirely
(the whole pipeline then ignores the root), while a relative one is
resolved under the root. -/
theorem C10_join_semantics (root p r1 r2 : String)
    (fs : String → Option (List Nat)) (d : ImageDescription) :
    (isAbsolutePath p = true → joinPath root p = p)
    ∧ (isAbsolutePath p = false → root ≠ "" → endsWithSep root = false →
        joinPath root p = root ++ "/" ++ p)
    ∧ (isAbsolutePath d.path = true →
        produce_doc_string_for_image (some r1) fs d =
          produce_doc_string_for_image (some r2) fs d) := by
  refine ⟨fun h => ?_, fun h hne hsl => ?_, fun h => ?_⟩
  · simp [joinPath, h]
  · simp [joinPath, h, hne, hsl]
  · have h1 : joinPath r1 d.path = d.path := by simp [joinPath, h]
    have h2 : joinPath r2 d.path = d.path := by simp [joinPath, h]
    simp only [produce_doc_string_for_image, h1, h2]

/-- Witness for C10 at an absolute descriptor path and two distinct
roots. -/
theorem C10_join_semantics_witness :
    isAbsolutePath "/abs/x.png" = true
    ∧ joinPath "/r" "/abs/x.png" = "/abs/x.png"
    ∧ produce_doc_string_for_image (some "/a") (fun _ => none)
        ⟨"l", "/abs/x.png"⟩ =
      produce_doc_string_for_image (some "/b") (fun _ => none)
        ⟨"l", "/abs/x.png"⟩ :=
  ⟨rfl,
   (C10_join_semantics "/r" "/abs/x.png" "/a" "/b" (fun _ => none)
     ⟨"l", "/abs/x.png"⟩).1 rfl,
   (C10_join_semantics "/r" "/abs/x.png" "/a" "/b" (fun _ => none)
     ⟨"l", "/abs/x.png"⟩).2.2 rfl⟩
